import Mathlib

/-!
Verification of the filtering + aggregation core of the diabetic patient care
dashboard (src/core.py): the sidebar filter (get_filtered_data), the KPI
aggregator (compute_kpis), the odds-ratio block of show_overview, and the
pd.cut binning of the distribution charts.

Encounters are rows of the loaded dataframe.  After load_data,
num_medications is numeric-or-NaN (pd.to_numeric with coerce), modelled as
Option ℚ with none standing for NaN.  Pandas comparisons NaN >= 10 evaluate
to False, which the model mirrors.  Python round(x, k) is modelled as
round-half-to-even at k decimal places over ℚ.
-/

namespace Dashboard

/-- One row of the dataframe after load_data: age_group is derived from age,
num_medications coerced to numeric with invalid entries becoming NaN (none). -/
structure Encounter where
  encounter_id : Nat
  patient_nbr : Nat
  age_group : String
  gender : String
  admission_type_id : Nat
  time_in_hospital : Nat
  num_medications : Option ℚ
  readmitted : String
deriving DecidableEq, Repr

/-- Round-half-to-even to an integer, as Python round does on exact halves. -/
def roundHalfEven (q : ℚ) : ℤ :=
  let f := Int.floor q
  let frac := q - (f : ℚ)
  if frac < 1/2 then f
  else if 1/2 < frac then f + 1
  else if f % 2 = 0 then f else f + 1

/-- Python round(x, nd) over ℚ. -/
def roundTo (nd : Nat) (q : ℚ) : ℚ :=
  (roundHalfEven (q * (10 : ℚ) ^ nd) : ℚ) / (10 : ℚ) ^ nd

/-- The conjunction of the three isin masks of get_filtered_data:
age_group.isin(age_selected) & gender.isin(gender_selected)
& admission_type_id.isin(adm_selected). -/
def rowMatches (ageSel genderSel : List String) (admSel : List Nat)
    (r : Encounter) : Bool :=
  decide (r.age_group ∈ ageSel) && decide (r.gender ∈ genderSel)
    && decide (r.admission_type_id ∈ admSel)

/-- df_raw[mask].copy() of get_filtered_data, with the three selections as
explicit arguments (the UI widgets only produce these lists). -/
def get_filtered_data (df : List Encounter) (ageSel genderSel : List String)
    (admSel : List Nat) : List Encounter :=
  df.filter (rowMatches ageSel genderSel admSel)

/-- df["readmitted"] == "<30". -/
def isReadmittedLt30 (r : Encounter) : Bool :=
  decide (r.readmitted = "<30")

/-- df["readmitted"].isin(["<30", ">30"]). -/
def isReadmittedEither (r : Encounter) : Bool :=
  decide (r.readmitted = "<30") || decide (r.readmitted = ">30")

/-- num_medications >= 10 in pandas: NaN compares as False. -/
def polypharmacy (r : Encounter) : Bool :=
  match r.num_medications with
  | some m => decide ((10 : ℚ) ≤ m)
  | none => false

/-- The dict returned by compute_kpis (readmitted_df included). -/
structure KPIs where
  readmission_rate : ℚ
  avg_los_readmitted : ℚ
  polypharmacy_rate : ℚ
  readmitted_df : List Encounter
deriving Repr

/-- compute_kpis of src/core.py: readmission rate over the whole subset,
average LOS and polypharmacy rate over the readmitted subset, each guarded
against an empty denominator, rounded to 1 decimal. -/
def compute_kpis (df : List Encounter) : KPIs :=
  let readmission_rate :=
    if df.length > 0 then
      ((df.countP isReadmittedLt30 : ℚ) / (df.length : ℚ)) * 100
    else 0
  let readmission_rate := roundTo 1 readmission_rate
  let readmitted_df := df.filter isReadmittedEither
  let avg_los_readmitted :=
    if readmitted_df.length > 0 then
      roundTo 1
        (((readmitted_df.map (fun r => (r.time_in_hospital : ℚ))).sum)
          / (readmitted_df.length : ℚ))
    else 0
  let polypharmacy_rate :=
    if readmitted_df.length > 0 then
      ((readmitted_df.countP polypharmacy : ℚ) / (readmitted_df.length : ℚ)) * 100
    else 0
  let polypharmacy_rate := roundTo 1 polypharmacy_rate
  ⟨readmission_rate, avg_los_readmitted, polypharmacy_rate, readmitted_df⟩

/-- temp["readmitted_30_flag"] = temp["readmitted"] == "<30". -/
def readmitted_30_flag (r : Encounter) : Bool :=
  decide (r.readmitted = "<30")

/-- Cell a: polypharmacy & readmitted_30_flag. -/
def cellA (df : List Encounter) : Nat :=
  df.countP (fun r => polypharmacy r && readmitted_30_flag r)

/-- Cell b: polypharmacy & ~readmitted_30_flag. -/
def cellB (df : List Encounter) : Nat :=
  df.countP (fun r => polypharmacy r && !readmitted_30_flag r)

/-- Cell c: ~polypharmacy & readmitted_30_flag. -/
def cellC (df : List Encounter) : Nat :=
  df.countP (fun r => !polypharmacy r && readmitted_30_flag r)

/-- Cell d: ~polypharmacy & ~readmitted_30_flag. -/
def cellD (df : List Encounter) : Nat :=
  df.countP (fun r => !polypharmacy r && !readmitted_30_flag r)

/-- adj of show_overview: x if x > 0 else 0.5. -/
def adj (x : Nat) : ℚ :=
  if x > 0 then (x : ℚ) else 1/2

/-- What the odds-ratio expander displays: the raw contingency counts and the
rounded corrected odds ratio. -/
structure OddsRatioView where
  a : Nat
  b : Nat
  c : Nat
  d : Nat
  odds_ratio : ℚ
deriving DecidableEq, Repr

/-- The odds-ratio expander of show_overview: computed only when len(df) > 0,
otherwise the "Not enough data" branch is taken (none). -/
def odds_ratio_section (df : List Encounter) : Option OddsRatioView :=
  if df.length > 0 then
    let a := cellA df
    let b := cellB df
    let c := cellC df
    let d := cellD df
    some ⟨a, b, c, d, roundTo 2 ((adj a * adj d) / (adj b * adj c))⟩
  else none

/-- pd.cut bin assignment with default right=True: a value x lands in bin i
iff edges[i] < x ≤ edges[i+1]; x outside every interval gets NaN (none). -/
def pdCutIndex : List ℚ → ℚ → Option Nat
  | e1 :: e2 :: rest, x =>
    if e1 < x ∧ x ≤ e2 then some 0
    else (pdCutIndex (e2 :: rest) x).map (· + 1)
  | _, _ => none

/-- Modelled from the spec: the left-closed, right-open binning the spec
describes (a boundary value in the higher-starting bin, topmost right edge
exclusive).  Kept separate from pdCutIndex to compare the two. -/
def specBinIndex : List ℚ → ℚ → Option Nat
  | e1 :: e2 :: rest, x =>
    if e1 ≤ x ∧ x < e2 then some 0
    else (specBinIndex (e2 :: rest) x).map (· + 1)
  | _, _ => none

/-- bins=[0, 2, 4, 6, 8, 10, 20] of the LOS chart. -/
def losBins : List ℚ := [0, 2, 4, 6, 8, 10, 20]

/-- labels of the LOS chart. -/
def losLabels : List String := ["1–2", "3–4", "5–6", "7–8", "9–10", "10+"]

/-- bins=[0, 5, 10, 15, 20, 30, 50] of the medications chart. -/
def medBins : List ℚ := [0, 5, 10, 15, 20, 30, 50]

/-- labels of the medications chart. -/
def medLabels : List String := ["0–4", "5–9", "10–14", "15–19", "20–29", "30+"]

/-- A concrete encounter with only the core-relevant fields varied. -/
def mkEnc (age gender : String) (adm los : Nat) (meds : Option ℚ)
    (readm : String) : Encounter :=
  ⟨0, 0, age, gender, adm, los, meds, readm⟩

/-- A readmitted (<30) encounter with 12 medications and LOS 3 days. -/
def rowR : Encounter := mkEnc "[70-80)" "Female" 1 3 (some 12) "<30"

/-- A never-readmitted encounter with 4 medications and LOS 5 days. -/
def rowN : Encounter := mkEnc "[70-80)" "Male" 1 5 (some 4) "NO"

/-- Ten concrete encounters, three of them readmitted within 30 days. -/
def dfTen : List Encounter :=
  [rowR, rowR, rowR, rowN, rowN, rowN, rowN, rowN, rowN, rowN]

/-- A polypharmacy, not-readmitted-within-30-days encounter (cell b). -/
def rowB : Encounter := mkEnc "[60-70)" "Male" 2 4 (some 15) "NO"

/-- A non-polypharmacy, readmitted-within-30-days encounter (cell c). -/
def rowC : Encounter := mkEnc "[60-70)" "Female" 2 6 (some 2) "<30"

/-- Ten encounters splitting 5/5 into cells b and c of the 2x2 table. -/
def dfCross : List Encounter :=
  [rowB, rowB, rowB, rowB, rowB, rowC, rowC, rowC, rowC, rowC]

/-- An encounter whose medication count failed numeric coercion (NaN). -/
def rowM : Encounter := mkEnc "[50-60)" "Male" 3 2 none "NO"

/-- Rounding an integer changes nothing. -/
lemma roundHalfEven_intCast (n : ℤ) : roundHalfEven (n : ℚ) = n := by
  simp [roundHalfEven]

/-- roundTo evaluated when the scaled argument is an integer. -/
lemma roundTo_eq_of_mul_eq (nd : Nat) (q : ℚ) (n : ℤ)
    (h : q * (10 : ℚ) ^ nd = (n : ℚ)) :
    roundTo nd q = (n : ℚ) / (10 : ℚ) ^ nd := by
  rw [roundTo, h, roundHalfEven_intCast]

/-- Rounding zero gives zero. -/
lemma roundTo_zero (nd : Nat) : roundTo nd 0 = 0 := by
  rw [roundTo_eq_of_mul_eq nd 0 0 (by norm_num)]
  norm_num

/-- In a strictly sorted list, the head bounds every indexed element. -/
lemma head_le_of_getElem_some (hd : ℚ) (l : List ℚ)
    (hp : (hd :: l).Pairwise (· < ·)) (j : Nat) (v : ℚ)
    (h : (hd :: l)[j]? = some v) : hd ≤ v := by
  cases j with
  | zero =>
    simp only [List.getElem?_cons_zero, Option.some.injEq] at h
    exact le_of_eq h
  | succ k =>
    have hv : v ∈ l := List.getElem?_mem (by simpa using h)
    exact ((List.pairwise_cons.mp hp).1 v hv).le

/-- pd.cut with right=True assigns x to bin i exactly when
edges[i] < x ≤ edges[i+1]. -/
lemma pdCutIndex_eq_some_iff (edges : List ℚ) (x : ℚ) :
    edges.Pairwise (· < ·) → ∀ i : Nat,
      (pdCutIndex edges x = some i ↔
        ∃ lo hi, edges[i]? = some lo ∧ edges[i + 1]? = some hi ∧
          lo < x ∧ x ≤ hi) := by
  induction edges with
  | nil => intro _ i; simp [pdCutIndex]
  | cons e1 tl ih =>
    intro hp i
    cases tl with
    | nil =>
      constructor
      · intro h; simp [pdCutIndex] at h
      · rintro ⟨lo, hi, h1, h2, _, _⟩
        rcases List.getElem?_eq_some.mp h2 with ⟨hlt, _⟩
        simp at hlt
    | cons e2 rest =>
      rw [show pdCutIndex (e1 :: e2 :: rest) x =
            (if e1 < x ∧ x ≤ e2 then some 0
             else (pdCutIndex (e2 :: rest) x).map (· + 1)) from rfl]
      by_cases hc : e1 < x ∧ x ≤ e2
      · rw [if_pos hc]
        cases i with
        | zero => simp [hc]
        | succ j =>
          constructor
          · intro h; simp at h
          · rintro ⟨lo, hi, h1, h2, hlt, hle⟩
            exfalso
            have he2lo : e2 ≤ lo :=
              head_le_of_getElem_some e2 rest
                (List.pairwise_cons.mp hp).2 j lo (by simpa using h1)
            linarith [hc.2]
      · rw [if_neg hc, Option.map_eq_some']
        cases i with
        | zero =>
          constructor
          · rintro ⟨a, _, ha⟩
            exact absurd ha (Nat.succ_ne_zero a)
          · rintro ⟨lo, hi, h1, h2, hlt, hle⟩
            simp only [List.getElem?_cons_zero, Option.some.injEq] at h1
            simp only [List.getElem?_cons_succ, List.getElem?_cons_zero,
              Option.some.injEq] at h2
            exact absurd ⟨h1 ▸ hlt, h2 ▸ hle⟩ hc
        | succ j =>
          have ihj := ih (List.pairwise_cons.mp hp).2 j
          constructor
          · rintro ⟨a, hpd, ha⟩
            have haj : a = j := by omega
            subst haj
            rcases ihj.mp hpd with ⟨lo, hi, h1, h2, hlt, hle⟩
            exact ⟨lo, hi, by simpa using h1, by simpa using h2, hlt, hle⟩
          · rintro ⟨lo, hi, h1, h2, hlt, hle⟩
            exact ⟨j, ihj.mpr ⟨lo, hi, by simpa using h1, by simpa using h2,
              hlt, hle⟩, rfl⟩

/-- A value at or below every edge is unbinned. -/
lemma pdCutIndex_eq_none_of_le (edges : List ℚ)
    (hp : edges.Pairwise (· < ·)) (x : ℚ)
    (hx : ∀ v ∈ edges, x ≤ v) : pdCutIndex edges x = none := by
  cases ho : pdCutIndex edges x with
  | none => rfl
  | some i =>
    exfalso
    rcases (pdCutIndex_eq_some_iff edges x hp i).mp ho with
      ⟨lo, hi, h1, _, hlt, _⟩
    exact absurd hlt (not_lt.mpr (hx lo (List.getElem?_mem h1)))

/-- A value above every edge is unbinned. -/
lemma pdCutIndex_eq_none_of_lt (edges : List ℚ)
    (hp : edges.Pairwise (· < ·)) (x : ℚ)
    (hx : ∀ v ∈ edges, v < x) : pdCutIndex edges x = none := by
  cases ho : pdCutIndex edges x with
  | none => rfl
  | some i =>
    exfalso
    rcases (pdCutIndex_eq_some_iff edges x hp i).mp ho with
      ⟨lo, hi, _, h2, _, hle⟩
    exact absurd hle (not_le.mpr (hx hi (List.getElem?_mem h2)))

/-- The four contingency cells partition the subset. -/
lemma contingency_sum (df : List Encounter) :
    cellA df + cellB df + cellC df + cellD df = df.length := by
  induction df with
  | nil => rfl
  | cons r t ih =>
    simp only [cellA, cellB, cellC, cellD, List.countP_cons, List.length_cons]
      at ih ⊢
    cases hp : polypharmacy r <;> cases hq : readmitted_30_flag r <;>
      simp [hp, hq] <;> omega

/-- Cells c and d together count the non-polypharmacy rows. -/
lemma cellC_add_cellD (df : List Encounter) :
    cellC df + cellD df = df.countP (fun s => !polypharmacy s) := by
  induction df with
  | nil => rfl
  | cons r t ih =>
    simp only [cellC, cellD, List.countP_cons] at ih ⊢
    cases hp : polypharmacy r <;> cases hq : readmitted_30_flag r <;>
      simp [hp, hq] <;> omega

/-- Claim C1: for every dataset and filter selection, the filtered subset
contains exactly the rows whose age-group, gender and admission-type values
belong to the respective selection sets; an empty selection set on any
dimension yields the empty subset. -/
theorem get_filtered_data_membership (df : List Encounter)
    (ageSel genderSel : List String) (admSel : List Nat) :
    (∀ r : Encounter,
      r ∈ get_filtered_data df ageSel genderSel admSel ↔
        r ∈ df ∧ r.age_group ∈ ageSel ∧ r.gender ∈ genderSel ∧
          r.admission_type_id ∈ admSel) ∧
    (ageSel = [] ∨ genderSel = [] ∨ admSel = [] →
      get_filtered_data df ageSel genderSel admSel = []) := by
  constructor
  · intro r
    simp [get_filtered_data, rowMatches, List.mem_filter, and_assoc]
  · rintro (h | h | h) <;>
      · subst h
        simp [get_filtered_data, List.filter_eq_nil_iff, rowMatches]

/-- Claim C1 witness: with an empty age-group selection the filter returns
the empty subset on a concrete ten-row dataset. -/
theorem get_filtered_data_membership_witness :
    get_filtered_data dfTen [] ["Male"] [1] = [] :=
  (get_filtered_data_membership dfTen [] ["Male"] [1]).2 (Or.inl rfl)

/-- Claim C2: on a non-empty subset, readmission_rate is the share of rows
with readmitted = "<30" times 100, rounded to one decimal. -/
theorem readmission_rate_formula (df : List Encounter) (h : df ≠ []) :
    (compute_kpis df).readmission_rate =
      roundTo 1
        ((((df.filter fun r => decide (r.readmitted = "<30")).length : ℚ)
          / (df.length : ℚ)) * 100) := by
  have hl : 0 < df.length := List.length_pos.mpr h
  simp [compute_kpis, hl, isReadmittedLt30, List.countP_eq_length_filter]
  rfl

/-- Claim C2 witness: ten rows of which three have readmitted = "<30" give a
readmission rate of exactly 30.0. -/
theorem readmission_rate_formula_witness :
    (compute_kpis dfTen).readmission_rate = 30 := by
  have h := readmission_rate_formula dfTen (by simp [dfTen])
  rw [h]
  have h3 : (dfTen.filter fun r => decide (r.readmitted = "<30")).length = 3 :=
    rfl
  have h10 : dfTen.length = 10 := rfl
  rw [h3, h10, roundTo_eq_of_mul_eq 1 _ 300 (by push_cast; norm_num)]
  norm_num

/-- Claim C3: the polypharmacy predicate holds exactly on rows with a present
medication count of at least 10 (missing counts never satisfy it), and on a
non-empty readmitted subset the polypharmacy rate is the share of such rows
among all rows of the readmitted subset, times 100, rounded to one decimal. -/
theorem polypharmacy_rate_formula (df : List Encounter)
    (h : (compute_kpis df).readmitted_df ≠ []) :
    (∀ r : Encounter, polypharmacy r = true ↔
        ∃ m : ℚ, r.num_medications = some m ∧ 10 ≤ m) ∧
    (∀ r : Encounter, r.num_medications = none → polypharmacy r = false) ∧
    (compute_kpis df).polypharmacy_rate =
      roundTo 1
        ((((compute_kpis df).readmitted_df.countP polypharmacy : ℚ)
          / ((compute_kpis df).readmitted_df.length : ℚ)) * 100) := by
  refine ⟨?_, ?_, ?_⟩
  · intro r
    cases hm : r.num_medications with
    | none => simp [polypharmacy, hm]
    | some m => simp [polypharmacy, hm]
  · intro r hm
    simp [polypharmacy, hm]
  · have hrd : (compute_kpis df).readmitted_df = df.filter isReadmittedEither :=
      rfl
    have hl : 0 < (df.filter isReadmittedEither).length := by
      rw [← hrd]
      exact List.length_pos.mpr h
    simp [compute_kpis, hl]

/-- Claim C3 witness: all three readmitted rows of the concrete dataset carry
12 medications, so the polypharmacy rate is exactly 100.0. -/
theorem polypharmacy_rate_formula_witness :
    (compute_kpis dfTen).polypharmacy_rate = 100 := by
  have hr : (compute_kpis dfTen).readmitted_df = [rowR, rowR, rowR] := rfl
  have h := polypharmacy_rate_formula dfTen (by rw [hr]; simp)
  rw [h.2.2, hr]
  have hc : ([rowR, rowR, rowR].countP polypharmacy) = 3 := by
    simp [List.countP_cons, polypharmacy, rowR, mkEnc]
    norm_num
  rw [hc]
  have hl : ([rowR, rowR, rowR] : List Encounter).length = 3 := rfl
  rw [hl, roundTo_eq_of_mul_eq 1 _ 1000 (by push_cast; norm_num)]
  norm_num

/-- Claim C4: the readmitted subset consists exactly of the rows whose
readmitted value is "<30" or ">30", and when it is non-empty the average LOS
is the arithmetic mean of time_in_hospital over it, rounded to one decimal. -/
theorem readmitted_subset_avg_los (df : List Encounter) :
    (∀ r : Encounter, r ∈ (compute_kpis df).readmitted_df ↔
        r ∈ df ∧ (r.readmitted = "<30" ∨ r.readmitted = ">30")) ∧
    ((compute_kpis df).readmitted_df ≠ [] →
      (compute_kpis df).avg_los_readmitted =
        roundTo 1
          ((((compute_kpis df).readmitted_df.map
              (fun r => (r.time_in_hospital : ℚ))).sum)
            / ((compute_kpis df).readmitted_df.length : ℚ))) := by
  constructor
  · intro r
    simp [compute_kpis, List.mem_filter, isReadmittedEither]
  · intro h
    have hrd : (compute_kpis df).readmitted_df = df.filter isReadmittedEither :=
      rfl
    have hl : 0 < (df.filter isReadmittedEither).length := by
      rw [← hrd]
      exact List.length_pos.mpr h
    simp [compute_kpis, hl]

/-- Claim C4 witness: the three readmitted rows all have LOS 3 days, so the
average LOS among readmitted encounters is exactly 3.0. -/
theorem readmitted_subset_avg_los_witness :
    (compute_kpis dfTen).avg_los_readmitted = 3 := by
  have hr : (compute_kpis dfTen).readmitted_df = [rowR, rowR, rowR] := rfl
  have h := (readmitted_subset_avg_los dfTen).2 (by rw [hr]; simp)
  rw [h, hr]
  have hs : (([rowR, rowR, rowR].map
      (fun r => (r.time_in_hospital : ℚ))).sum) = 9 := by
    simp [rowR, mkEnc]
    norm_num
  have hl : ([rowR, rowR, rowR] : List Encounter).length = 3 := rfl
  rw [hs, hl, roundTo_eq_of_mul_eq 1 _ 30 (by push_cast; norm_num)]
  norm_num

/-- Claim C5: on a non-empty subset the odds-ratio block reports the raw 2x2
counts obtained by crossing the polypharmacy and readmitted-within-30-days
flags, replaces zero cells by 0.5 only inside the ratio, and returns
(a_adj * d_adj) / (b_adj * c_adj) rounded to two decimals. -/
theorem odds_ratio_structure (df : List Encounter) (h : df ≠ []) :
    ∃ v : OddsRatioView, odds_ratio_section df = some v ∧
      v.a = df.countP (fun r => polypharmacy r && readmitted_30_flag r) ∧
      v.b = df.countP (fun r => polypharmacy r && !readmitted_30_flag r) ∧
      v.c = df.countP (fun r => !polypharmacy r && readmitted_30_flag r) ∧
      v.d = df.countP (fun r => !polypharmacy r && !readmitted_30_flag r) ∧
      v.odds_ratio = roundTo 2 ((adj v.a * adj v.d) / (adj v.b * adj v.c)) ∧
      (∀ x : Nat, adj x = if x = 0 then (1/2 : ℚ) else (x : ℚ)) := by
  have hl : 0 < df.length := List.length_pos.mpr h
  refine ⟨⟨cellA df, cellB df, cellC df, cellD df,
    roundTo 2 ((adj (cellA df) * adj (cellD df))
      / (adj (cellB df) * adj (cellC df)))⟩, ?_, rfl, rfl, rfl, rfl, rfl, ?_⟩
  · simp [odds_ratio_section, hl]
  · intro x
    cases x with
    | zero => simp [adj]
    | succ n => simp [adj]

/-- Claim C5 witness: raw counts a=0, b=5, c=5, d=0 are reported uncorrected
and produce the corrected odds ratio (0.5*0.5)/(5*5) = 0.01. -/
theorem odds_ratio_structure_witness :
    odds_ratio_section dfCross = some ⟨0, 5, 5, 0, 1/100⟩ := by
  obtain ⟨v, hv, hva, hvb, hvc, hvd, hvo, _⟩ :=
    odds_ratio_structure dfCross (by simp [dfCross])
  have ha : dfCross.countP (fun r => polypharmacy r && readmitted_30_flag r)
      = 0 := by
    simp [dfCross, rowB, rowC, mkEnc, List.countP_cons, polypharmacy,
      readmitted_30_flag]
    norm_num
  have hb : dfCross.countP (fun r => polypharmacy r && !readmitted_30_flag r)
      = 5 := by
    simp [dfCross, rowB, rowC, mkEnc, List.countP_cons, polypharmacy,
      readmitted_30_flag]
    norm_num
  have hc : dfCross.countP (fun r => !polypharmacy r && readmitted_30_flag r)
      = 5 := by
    simp [dfCross, rowB, rowC, mkEnc, List.countP_cons, polypharmacy,
      readmitted_30_flag]
    norm_num
  have hd : dfCross.countP (fun r => !polypharmacy r && !readmitted_30_flag r)
      = 0 := by
    simp [dfCross, rowB, rowC, mkEnc, List.countP_cons, polypharmacy,
      readmitted_30_flag]
    norm_num
  rw [ha] at hva
  rw [hb] at hvb
  rw [hc] at hvc
  rw [hd] at hvd
  have hor : v.odds_ratio = 1/100 := by
    rw [hvo, hva, hvb, hvc, hvd]
    have hadj0 : adj 0 = 1/2 := by simp [adj]
    have hadj5 : adj 5 = 5 := by simp [adj]
    rw [hadj0, hadj5, roundTo_eq_of_mul_eq 2 _ 1 (by push_cast; norm_num)]
    norm_num
  rw [hv]
  rcases v with ⟨a, b, c, d, o⟩
  simp only at hva hvb hvc hvd hor
  rw [hva, hvb, hvc, hvd, hor]

/-- Claim C6 counterexample: pd.cut with its default right-closed intervals
assigns the boundary value 2 to the first LOS bin and includes 20 in the top
bin while dropping 0, the opposite of the left-closed right-open assignment
with exclusive top edge stated by the claim. -/
theorem bin_assignment_counterexample :
    pdCutIndex losBins 2 = some 0 ∧ specBinIndex losBins 2 = some 1 ∧
    pdCutIndex losBins 0 = none ∧ specBinIndex losBins 0 = some 0 ∧
    pdCutIndex losBins 20 = some 5 ∧ specBinIndex losBins 20 = none := by
  refine ⟨?_, ?_, ?_, ?_, ?_, ?_⟩ <;>
    norm_num [pdCutIndex, specBinIndex, losBins]

/-- Claim C6 (amended): a value is assigned to at most one bin by left-open,
right-closed interval membership (a boundary value belongs to the bin ending
at it); the bottom edge of the lowest bin is exclusive, the topmost bin's
right edge is inclusive, and values outside all bins are dropped from the
distribution rather than raising an error. -/
theorem bin_assignment_right_closed (x : ℚ) (i : Nat) :
    (pdCutIndex losBins x = some i ↔
      ∃ lo hi, losBins[i]? = some lo ∧ losBins[i + 1]? = some hi ∧
        lo < x ∧ x ≤ hi) ∧
    (pdCutIndex medBins x = some i ↔
      ∃ lo hi, medBins[i]? = some lo ∧ medBins[i + 1]? = some hi ∧
        lo < x ∧ x ≤ hi) ∧
    (x ≤ 0 ∨ 20 < x → pdCutIndex losBins x = none) ∧
    (x ≤ 0 ∨ 50 < x → pdCutIndex medBins x = none) := by
  have hplos : losBins.Pairwise (· < ·) := by
    norm_num [losBins, List.pairwise_cons]
  have hpmed : medBins.Pairwise (· < ·) := by
    norm_num [medBins, List.pairwise_cons]
  refine ⟨pdCutIndex_eq_some_iff losBins x hplos i,
    pdCutIndex_eq_some_iff medBins x hpmed i, ?_, ?_⟩
  · rintro (hx | hx)
    · apply pdCutIndex_eq_none_of_le losBins hplos
      intro v hv
      simp only [losBins] at hv
      fin_cases hv <;> linarith
    · apply pdCutIndex_eq_none_of_lt losBins hplos
      intro v hv
      simp only [losBins] at hv
      fin_cases hv <;> linarith
  · rintro (hx | hx)
    · apply pdCutIndex_eq_none_of_le medBins hpmed
      intro v hv
      simp only [medBins] at hv
      fin_cases hv <;> linarith
    · apply pdCutIndex_eq_none_of_lt medBins hpmed
      intro v hv
      simp only [medBins] at hv
      fin_cases hv <;> linarith

/-- Claim C6 witness: values beyond the top edges are unbinned. -/
theorem bin_assignment_right_closed_witness :
    pdCutIndex losBins 21 = none ∧ pdCutIndex medBins 51 = none :=
  ⟨(bin_assignment_right_closed 21 0).2.2.1 (Or.inr (by norm_num)),
   (bin_assignment_right_closed 51 0).2.2.2 (Or.inr (by norm_num))⟩

/-- Claim C7: on the empty subset every aggregation is defined and zero:
readmission rate, average LOS and polypharmacy rate are all 0.0 and the
odds-ratio block is skipped; likewise whenever the readmitted subset alone
is empty, the two readmitted-based KPIs are 0.0. -/
theorem empty_subset_aggregations :
    (compute_kpis []).readmission_rate = 0 ∧
    (compute_kpis []).avg_los_readmitted = 0 ∧
    (compute_kpis []).polypharmacy_rate = 0 ∧
    odds_ratio_section [] = none ∧
    (∀ df : List Encounter, (compute_kpis df).readmitted_df = [] →
      (compute_kpis df).avg_los_readmitted = 0 ∧
      (compute_kpis df).polypharmacy_rate = 0) := by
  refine ⟨?_, ?_, ?_, ?_, ?_⟩
  · simp [compute_kpis, roundTo_zero]
  · simp [compute_kpis]
  · simp [compute_kpis, roundTo_zero]
  · simp [odds_ratio_section]
  · intro df h
    have hrd : df.filter isReadmittedEither = [] := h
    constructor
    · simp [compute_kpis, hrd]
    · simp [compute_kpis, hrd, roundTo_zero]

/-- Claim C7 witness: a dataset with a single never-readmitted row has an
empty readmitted subset, and both readmitted-based KPIs are 0.0. -/
theorem empty_subset_aggregations_witness :
    (compute_kpis [rowN]).avg_los_readmitted = 0 ∧
    (compute_kpis [rowN]).polypharmacy_rate = 0 :=
  empty_subset_aggregations.2.2.2.2 [rowN] rfl

/-- Claim C8: the raw contingency counts a, b, c, d of the odds-ratio block
sum to the number of rows of the subset they are built from. -/
theorem contingency_sum_eq_length (df : List Encounter) :
    cellA df + cellB df + cellC df + cellD df = df.length :=
  contingency_sum df

/-- Claim C9: shrinking any dimension's selection set can only shrink the
filtered subset. -/
theorem filtered_size_monotone (df : List Encounter)
    (a1 g1 : List String) (m1 : List Nat)
    (a2 g2 : List String) (m2 : List Nat)
    (ha : ∀ x, x ∈ a2 → x ∈ a1) (hg : ∀ x, x ∈ g2 → x ∈ g1)
    (hm : ∀ x, x ∈ m2 → x ∈ m1) :
    (get_filtered_data df a2 g2 m2).length ≤
      (get_filtered_data df a1 g1 m1).length := by
  simp only [get_filtered_data, ← List.countP_eq_length_filter]
  apply List.countP_mono_left
  intro r hr hmatch
  simp only [rowMatches, Bool.and_eq_true, decide_eq_true_eq] at hmatch ⊢
  exact ⟨⟨ha _ hmatch.1.1, hg _ hmatch.1.2⟩, hm _ hmatch.2⟩

/-- Claim C9 witness: restricting the gender selection from both values to
one value does not increase the filtered size on a concrete dataset. -/
theorem filtered_size_monotone_witness :
    (get_filtered_data dfTen ["[70-80)"] ["Female"] [1]).length ≤
      (get_filtered_data dfTen ["[70-80)"] ["Female", "Male"] [1]).length := by
  apply filtered_size_monotone dfTen
  · intro x hx; exact hx
  · intro x hx; simp at hx ⊢; tauto
  · intro x hx; exact hx

/-- Claim C10: a row whose medication count failed numeric coercion has a
false polypharmacy flag, lands in the non-polypharmacy column (cells c and d
count exactly the non-polypharmacy rows, and there is at least one such row),
and still contributes to the total a + b + c + d = subset size. -/
theorem missing_meds_in_nonpoly_column (df : List Encounter) (r : Encounter)
    (hr : r ∈ df) (hm : r.num_medications = none) :
    polypharmacy r = false ∧
    cellC df + cellD df = df.countP (fun s => !polypharmacy s) ∧
    1 ≤ df.countP (fun s => !polypharmacy s) ∧
    cellA df + cellB df + cellC df + cellD df = df.length := by
  have hp : polypharmacy r = false := by simp [polypharmacy, hm]
  refine ⟨hp, cellC_add_cellD df, ?_, contingency_sum df⟩
  have hpos : 0 < df.countP (fun s => !polypharmacy s) :=
    List.countP_pos_iff.mpr ⟨r, hr, by simp [hp]⟩
  omega

/-- Claim C10 witness: a one-row dataset whose row has a missing medication
count still yields a full contingency table of total 1. -/
theorem missing_meds_in_nonpoly_column_witness :
    polypharmacy rowM = false ∧
    cellA [rowM] + cellB [rowM] + cellC [rowM] + cellD [rowM] = 1 := by
  have h := missing_meds_in_nonpoly_column [rowM] rowM (by simp) rfl
  exact ⟨h.1, by simpa using h.2.2.2⟩

end Dashboard
